import Mathlib

/-!
Verification of the camp-service appointment booking system.

The definitions below are a shallow embedding of the Python sources:
  app/utils/validators.py   (PhoneValidator, DateValidator, TimeSlotValidator,
                             NameValidator, CampValidator)
  app/services/booking_service.py   (BookingService)
  app/services/service_manager.py   (ServiceManager)
  app/services/notification_service.py (NotificationService, modelled only as
                             far as it affects bookings)
  app/models.py             (Service, Booking, Notification rows)

Conventions of the embedding:
  * Calendar dates are integers (days); `today` is passed explicitly where the
    Python code calls `date.today()`.
  * Database tables are Lean lists; autoincrement primary keys are modelled by
    a `next...Id` counter in the state.
  * The str-pattern regex class `\d` matches any Unicode decimal digit
    (category Nd); it is modelled by `isPyDigit` over the table
    `ndRangeStarts` of the Nd runs of Unicode 15.0, each run being ten
    consecutive code points with values 0-9, which is also how `int()`
    evaluates such digits (`pyDigitVal`).  The anchor `$` of `re.match` also
    matches just before one trailing newline, which `validate_time_slot`
    models explicitly, and `int()` ignores that trailing whitespace.  `\s` is
    modelled as `Char.isWhitespace`.  `random.choices` is modelled by an
    explicit stream of candidate suffixes handed to the operation.
  * Python dicts of field errors are association lists `List (String × String)`;
    each validator writes a distinct key, so insertion order is preserved.
  * Exceptions raised while sending notifications are modelled by the
    `NotifyOutcome` argument; the callers of interest catch every exception.
-/

namespace CampBooking

/-! Section: Character and string helpers -/

/-- ASCII digit test, the model of the regex class `\d`. -/
def isDigitChar (c : Char) : Bool :=
  48 ≤ c.toNat && c.toNat ≤ 57

/-- Numeric value of a digit character (`int` applied to one digit). -/
def digitVal (c : Char) : Nat :=
  c.toNat - 48

/-- The decimal digit character for `n < 10` (clamped at 9 otherwise). -/
def digitChar (n : Nat) : Char :=
  match n with
  | 0 => '0' | 1 => '1' | 2 => '2' | 3 => '3' | 4 => '4'
  | 5 => '5' | 6 => '6' | 7 => '7' | 8 => '8' | _ => '9'

/-- Two-digit zero-padded rendering of `n < 100`, as in `f"{n:02d}"`. -/
def twoDigitString (n : Nat) : String :=
  String.mk [digitChar (n / 10), digitChar (n % 10)]

/-- First code points of the decimal-digit (Nd) runs of Unicode 15.0; every
run is ten consecutive code points carrying the values 0..9.  This is the
character class matched by `\d` in a Python str pattern, and the value
`int()` assigns to each such digit. -/
def ndRangeStarts : List Nat :=
  [0x0030, 0x0660, 0x06F0, 0x07C0, 0x0966, 0x09E6, 0x0A66, 0x0AE6, 0x0B66,
   0x0BE6, 0x0C66, 0x0CE6, 0x0D66, 0x0DE6, 0x0E50, 0x0ED0, 0x0F20, 0x1040,
   0x1090, 0x17E0, 0x1810, 0x1946, 0x19D0, 0x1A80, 0x1A90, 0x1B50, 0x1BB0,
   0x1C40, 0x1C50, 0xA620, 0xA8D0, 0xA900, 0xA9D0, 0xA9F0, 0xAA50, 0xABF0,
   0xFF10, 0x104A0, 0x10D30, 0x11066, 0x110F0, 0x11136, 0x111D0, 0x112F0,
   0x11450, 0x114D0, 0x11650, 0x116C0, 0x11730, 0x118E0, 0x11950, 0x11C50,
   0x11D50, 0x11DA0, 0x11F50, 0x16A60, 0x16AC0, 0x16B50, 0x1D7CE, 0x1D7D8,
   0x1D7E2, 0x1D7EC, 0x1D7F6, 0x1E140, 0x1E2F0, 0x1E4F0, 0x1E950, 0x1FBF0]

/-- Unicode decimal-digit test: the model of the str-pattern class `\d`. -/
def isPyDigit (c : Char) : Bool :=
  ndRangeStarts.any (fun s => s ≤ c.toNat && c.toNat < s + 10)

/-- The decimal value `int()` assigns to a Unicode digit character. -/
def pyDigitVal (c : Char) : Nat :=
  match ndRangeStarts.find? (fun s => s ≤ c.toNat && c.toNat < s + 10) with
  | some s => c.toNat - s
  | none => 0

/-- Model of Python `str.strip()`: drop leading and trailing whitespace. -/
def pyStrip (s : String) : String :=
  String.mk (((s.data.dropWhile Char.isWhitespace).reverse.dropWhile
    Char.isWhitespace).reverse)

/-! Section: validators.py -/

/-- The digit-and-value checks shared by both accepted shapes of
`validate_time_slot`: four `\d` matches and the `int()`-based hour and minute
range tests of validators.py:126-133. -/
def timeSlotCore (h1 h2 m1 m2 : Char) : Bool :=
  isPyDigit h1 && isPyDigit h2 && isPyDigit m1 && isPyDigit m2 &&
    (let hours := 10 * pyDigitVal h1 + pyDigitVal h2
     let minutes := 10 * pyDigitVal m1 + pyDigitVal m2
     decide (hours < 24) && (minutes == 0 || minutes == 15 || minutes == 30 || minutes == 45))

/-- Model of `TimeSlotValidator.validate_time_slot` (validators.py:112-135):
`re.match` of `^\d{2}:\d{2}$` — whose anchor `$` also matches just before one
trailing newline — followed by `int()` conversion of the two parts (`int`
ignores the trailing whitespace), an hour value in `0..23` and a minute value
in `{0, 15, 30, 45}`. -/
def validate_time_slot (time_slot : String) : Bool :=
  match time_slot.data with
  | [h1, h2, c, m1, m2] => (c == ':') && timeSlotCore h1 h2 m1 m2
  | [h1, h2, c, m1, m2, nl] => (c == ':') && (nl == '\n') && timeSlotCore h1 h2 m1 m2
  | _ => false

/-- Model of `DateValidator.validate_date` (validators.py:61-84) for an argument that is
already a date object (the string-parsing branches do not apply): reject a date
strictly before today unless `allow_past` is set. -/
def validate_date (today : Int) (date_value : Int) (allow_past : Bool) : Bool × Option String :=
  if !allow_past && decide (date_value < today) then (false, some "Date cannot be in the past")
  else (true, none)

/-- Model of `DateValidator.validate_date_range` (validators.py:86-104): valid dates are
at most `max_days_ahead` days after today. -/
def validate_date_range (today : Int) (date_value : Int) (max_days_ahead : Int) : Bool :=
  if !(validate_date today date_value false).1 then false
  else decide (date_value ≤ today + max_days_ahead)

/-- Model of `PhoneValidator.format_phone` (validators.py:12-34): keep the digits, drop
one leading `7` or `8`, require exactly ten digits, render the fixed pattern. -/
def format_phone (phone : String) : Option String :=
  let digits0 := phone.data.filter isPyDigit
  let digits := match digits0 with
    | c :: rest => if c == '7' || c == '8' then rest else digits0
    | [] => digits0
  if digits.length == 10 then
    some ("+7 (" ++ String.mk (digits.take 3) ++ ") " ++ String.mk ((digits.drop 3).take 3)
      ++ "-" ++ String.mk ((digits.drop 6).take 2) ++ "-" ++ String.mk ((digits.drop 8).take 2))
  else none

/-- The regex `^\+7 \(\d{3}\) \d{3}-\d{2}-\d{2}$` of `PhoneValidator`. -/
def phone_pattern (s : String) : Bool :=
  match s.data with
  | ['+', '7', ' ', '(', a, b, c, ')', ' ', d, e, f, '-', g, h, '-', i, j] =>
    isPyDigit a && isPyDigit b && isPyDigit c && isPyDigit d && isPyDigit e &&
      isPyDigit f && isPyDigit g && isPyDigit h && isPyDigit i && isPyDigit j
  | _ => false

/-- Model of `PhoneValidator.validate_phone` (validators.py:36-55). -/
def validate_phone (phone : String) : Bool :=
  if phone.data.isEmpty then false
  else phone_pattern phone || (format_phone phone).isSome

/-- One character of the regex class `[А-Яа-яЁё\s\-]` of `NameValidator`. -/
def isCyrillicNameChar (c : Char) : Bool :=
  (0x410 ≤ c.toNat && c.toNat ≤ 0x44F) || c == 'Ё' || c == 'ё' || c.isWhitespace || c == '-'

/-- Model of `NameValidator.validate_name` (validators.py:143-163). -/
def validate_name (name : String) (min_length max_length : Nat) : Bool :=
  if name.data.isEmpty then false
  else
    let stripped := pyStrip name
    if stripped.data.length < min_length || max_length < stripped.data.length then false
    else !stripped.data.isEmpty && stripped.data.all isCyrillicNameChar

/-- Model of `CampValidator.validate_camp` (validators.py:169-180). -/
def validate_camp (camp : String) (valid_camps : List String) : Bool :=
  valid_camps.contains camp

/-! Section: models.py: the rows of the three tables the claims touch -/

/-- A row of the `services` table (models.py:8-36). -/
structure Service where
  id : Nat
  name : String
  description : String
  required_documents : String
  active : Bool
  display_order : Nat
deriving DecidableEq, Repr

/-- A row of the `bookings` table (models.py:39-62). -/
structure Booking where
  id : Nat
  service_id : Nat
  date : Int
  time_slot : String
  last_name : String
  first_name : String
  phone : String
  camp : String
  status : String
  reference_number : String
deriving DecidableEq, Repr

/-- A row of the `notifications` table (models.py:118-142); the title and
message text are presentation data and are not needed by any claim, so only
the linking and type fields are kept. -/
structure NotificationRec where
  booking_id : Nat
  notification_type : String
deriving DecidableEq, Repr

/-- The database state shared by all operations. -/
structure DBState where
  services : List Service
  bookings : List Booking
  notifications : List NotificationRec
  nextServiceId : Nat
  nextBookingId : Nat
deriving DecidableEq, Repr

/-- The configuration values the booking path reads (config.py:44-58):
`MAX_BOOKINGS_PER_SLOT = 2`, `CAMPS`, and the current date. -/
structure Config where
  maxBookings : Nat
  today : Int
  validCamps : List String
deriving Repr

/-- The empty database. -/
def initState : DBState :=
  { services := [], bookings := [], notifications := [], nextServiceId := 1, nextBookingId := 1 }

/-- Model of `Service.query.get` on the embedded table. -/
def findService (services : List Service) (service_id : Nat) : Option Service :=
  services.find? (fun s => s.id == service_id)

/-- Model of `Booking.query.get` on the embedded table. -/
def findBooking (bookings : List Booking) (booking_id : Nat) : Option Booking :=
  bookings.find? (fun b => b.id == booking_id)

/-- The filter `date == d AND time_slot == ts AND status == 'confirmed'`. -/
def slotMatch (d : Int) (ts : String) (b : Booking) : Bool :=
  b.date == d && b.time_slot == ts && b.status == "confirmed"

/-! Section: booking_service.py -/

/-- Model of `BookingService.get_slot_count` (booking_service.py:56-73): the number of
confirmed bookings for a (date, time slot) pair. -/
def get_slot_count (bookings : List Booking) (booking_date : Int) (time_slot : String) : Nat :=
  (bookings.filter (slotMatch booking_date time_slot)).length

/-- Model of `BookingService.is_slot_available` (booking_service.py:34-54). -/
def is_slot_available (bookings : List Booking) (booking_date : Int) (time_slot : String)
    (max_bookings : Nat) : Bool :=
  decide (get_slot_count bookings booking_date time_slot < max_bookings)

/-- Model of `BookingService.generate_reference_number` (booking_service.py:13-32).
`date_part` stands for `date.today().strftime("%Y%m%d")` and `candidates` for
the successive outputs of `random.choices(ascii_uppercase + digits, k=4)`;
each candidate colliding with a stored reference number is discarded and the
next one is tried.  An empty candidate supply models the (probability-zero)
case in which the Python loop never returns. -/
def generate_reference_number (date_part : String) (candidates : List String)
    (existingRefs : List String) : Option String :=
  match candidates with
  | [] => none
  | c :: rest =>
    let reference := date_part ++ "-" ++ c
    if existingRefs.contains reference then generate_reference_number date_part rest existingRefs
    else some reference

/-- The input record of `BookingService.create_booking`. -/
structure BookingInput where
  service_id : Nat
  date : Int
  time_slot : String
  last_name : String
  first_name : String
  phone : String
  camp : String
deriving Repr

/-- The error-dict accumulation inside `BookingService.validate_booking_data`
(booking_service.py:95-153), in source order; the date argument is a date
object, so the `isinstance(booking_date, str)` branch does not apply. -/
def validate_booking_errors (services : List Service) (today : Int) (inp : BookingInput)
    (valid_camps : List String) : List (String × String) :=
  let errors : List (String × String) := []
  let errors := match findService services inp.service_id with
    | none => errors ++ [("service", "Услуга не найдена")]
    | some s => if !s.active then errors ++ [("service", "Услуга недоступна")] else errors
  let errors := match validate_date today inp.date false with
    | (false, msg) => errors ++ [("date", msg.getD "")]
    | (true, _) =>
      if !validate_date_range today inp.date 30 then
        errors ++ [("date", "Дата выходит за допустимый диапазон")]
      else errors
  let errors := if !validate_time_slot inp.time_slot then
      errors ++ [("time_slot", "Неверный формат времени")]
    else errors
  let errors := if !validate_name inp.last_name 2 50 then
      errors ++ [("last_name", "Фамилия должна содержать только кириллицу (2-50 символов)")]
    else errors
  let errors := if !validate_name inp.first_name 2 50 then
      errors ++ [("first_name", "Имя должно содержать только кириллицу (2-50 символов)")]
    else errors
  let errors := if !validate_phone inp.phone then
      errors ++ [("phone", "Неверный формат телефона. Используйте формат +7 (XXX) XXX-XX-XX")]
    else errors
  let errors := if !validate_camp inp.camp valid_camps then
      errors ++ [("camp", "Неверный выбор лагеря")]
    else errors
  errors

/-- Model of `BookingService.validate_booking_data` returns `(len(errors) == 0, errors)`. -/
def validate_booking_data (services : List Service) (today : Int) (inp : BookingInput)
    (valid_camps : List String) : Bool × List (String × String) :=
  let errors := validate_booking_errors services today inp valid_camps
  (errors.isEmpty, errors)

/-- Model of `BookingService.create_booking` (booking_service.py:155-209).  The result
is `none` only when the reference-number loop never returns (empty candidate
supply); otherwise it is the returned `(booking or None, errors)` pair together
with the database state after the call. -/
def create_booking (cfg : Config) (inp : BookingInput) (candidates : List String)
    (date_part : String) (s : DBState) :
    Option ((Option Booking × List (String × String)) × DBState) :=
  let v := validate_booking_data s.services cfg.today inp cfg.validCamps
  if !v.1 then some ((none, v.2), s)
  else if !is_slot_available s.bookings inp.date inp.time_slot cfg.maxBookings then
    some ((none, [("time_slot",
      "К сожалению, это время уже занято. Пожалуйста, выберите другое время.")]), s)
  else match format_phone inp.phone with
    | none => some ((none, [("phone", "Не удалось отформатировать номер телефона")]), s)
    | some formatted_phone =>
      match generate_reference_number date_part candidates
          (s.bookings.map (fun b => b.reference_number)) with
      | none => none
      | some reference_number =>
        let booking : Booking :=
          { id := s.nextBookingId
            service_id := inp.service_id
            date := inp.date
            time_slot := inp.time_slot
            last_name := pyStrip inp.last_name
            first_name := pyStrip inp.first_name
            phone := formatted_phone
            camp := inp.camp
            status := "confirmed"
            reference_number := reference_number }
        some ((some booking, []),
          { s with bookings := s.bookings ++ [booking], nextBookingId := s.nextBookingId + 1 })

/-- Model of `booking.status = "cancelled"` applied to one row. -/
def setCancelled (b : Booking) : Booking :=
  { b with status := "cancelled" }

/-- The row update performed by `cancel_booking` on the table. -/
def cancelUpd (booking_id : Nat) (b : Booking) : Booking :=
  if b.id == booking_id then setCancelled b else b

/-- Outcome of the `NotificationService.send_cancellation_notification` call:
it returned `True` (a notification record was created), returned `False`
(record creation failed, everything rolled back), or raised an exception that
the caller catches. -/
inductive NotifyOutcome where
  | returned : Bool → NotifyOutcome
  | raised : String → NotifyOutcome
deriving DecidableEq, Repr

/-- Model of `BookingService.cancel_booking` (booking_service.py:291-317): set the
status to cancelled, commit, then (for admin cancellations) attempt the
notification inside `try/except` — the attempt never changes the result. -/
def cancel_booking (booking_id : Nat) (cancelled_by_admin : Bool) (outcome : NotifyOutcome)
    (s : DBState) : Bool × DBState :=
  match findBooking s.bookings booking_id with
  | none => (false, s)
  | some b =>
    let s1 := { s with bookings := s.bookings.map (cancelUpd booking_id) }
    let s2 := if cancelled_by_admin then
        match outcome with
        | NotifyOutcome.returned true =>
          { s1 with notifications :=
              s1.notifications ++ [{ booking_id := b.id, notification_type := "cancellation" }] }
        | _ => s1
      else s1
    (true, s2)

/-! Section: service_manager.py -/

/-- Model of `ServiceManager.can_delete_service` (service_manager.py:143-161): count the
bookings of the service whose status is not cancelled. -/
def can_delete_service (bookings : List Booking) (service_id : Nat) : Bool :=
  (bookings.filter (fun b => b.service_id == service_id && !(b.status == "cancelled"))).length == 0

/-- Model of `ServiceManager.delete_service` (service_manager.py:163-198): check, fetch,
double-check, then delete every booking of the service and the service row. -/
def delete_service (service_id : Nat) (s : DBState) : Bool × DBState :=
  if !can_delete_service s.bookings service_id then (false, s)
  else match findService s.services service_id with
    | none => (false, s)
    | some service =>
      if decide (0 < (s.bookings.filter
          (fun b => b.service_id == service.id && !(b.status == "cancelled"))).length) then
        (false, s)
      else
        (true, { s with
          bookings := s.bookings.filter (fun b => !(b.service_id == service.id))
          services := s.services.filter (fun x => !(x.id == service.id)) })

/-- Model of `ServiceManager.create_service` (service_manager.py:39-72); the JSON
rendering of the document list is taken as an opaque string argument. -/
def create_service (name description documents_json : String) (s : DBState) :
    Option Service × DBState :=
  if (s.services.find? (fun sv => sv.name == name)).isSome then (none, s)
  else
    let service : Service :=
      { id := s.nextServiceId
        name := name
        description := description
        required_documents := documents_json
        active := true
        display_order := 999 }
    (some service, { s with services := s.services ++ [service],
                            nextServiceId := s.nextServiceId + 1 })

/-- The non-name field updates of `update_service` applied to the found row. -/
def applyServiceUpdate (service_id : Nat) (newName : Option String)
    (description documents_json : Option String) (s : DBState) : DBState :=
  { s with services := s.services.map (fun sv =>
      if sv.id == service_id then
        { sv with
          name := newName.getD sv.name
          description := description.getD sv.description
          required_documents := documents_json.getD sv.required_documents }
      else sv) }

/-- Model of `ServiceManager.update_service` (service_manager.py:74-105); an empty new
name is falsy in Python and is therefore ignored, and a name conflict aborts
the whole update. -/
def update_service (service_id : Nat) (name description documents_json : Option String)
    (s : DBState) : Bool × DBState :=
  match findService s.services service_id with
  | none => (false, s)
  | some service =>
    match name with
    | some n =>
      if !n.data.isEmpty && !(n == service.name) then
        if (s.services.find? (fun sv => sv.name == n)).isSome then (false, s)
        else (true, applyServiceUpdate service.id (some n) description documents_json s)
      else (true, applyServiceUpdate service.id none description documents_json s)
    | none => (true, applyServiceUpdate service.id none description documents_json s)

/-- Model of `ServiceManager.toggle_service_status` (service_manager.py:107-123). -/
def toggle_service_status (service_id : Nat) (s : DBState) : Bool × DBState :=
  match findService s.services service_id with
  | none => (false, s)
  | some service =>
    (true, { s with services := s.services.map (fun sv =>
      if sv.id == service.id then { sv with active := !sv.active } else sv) })

/-- Model of `ServiceManager.deactivate_service` (service_manager.py:125-141). -/
def deactivate_service (service_id : Nat) (s : DBState) : Bool × DBState :=
  match findService s.services service_id with
  | none => (false, s)
  | some service =>
    (true, { s with services := s.services.map (fun sv =>
      if sv.id == service.id then { sv with active := false } else sv) })

/-! Section: The transition system

One step per mutating operation of the repository.  The routes (admin.py,
public.py) and the scheduler only ever mutate the booking and service tables
through these service-layer functions;  notification-layer operations
(`save_subscription`, `mark_notification_read`, the reminder sweep and push
delivery) write only the notification and subscription tables, which the
`notifyOnly` step over-approximates. -/

inductive Step (cfg : Config) : DBState → DBState → Prop where
  | create (inp : BookingInput) (candidates : List String) (date_part : String)
      (s : DBState) (res : Option Booking × List (String × String)) (s2 : DBState) :
      create_booking cfg inp candidates date_part s = some (res, s2) → Step cfg s s2
  | cancel (booking_id : Nat) (cancelled_by_admin : Bool) (outcome : NotifyOutcome)
      (s : DBState) (r : Bool) (s2 : DBState) :
      cancel_booking booking_id cancelled_by_admin outcome s = (r, s2) → Step cfg s s2
  | deleteService (service_id : Nat) (s : DBState) (r : Bool) (s2 : DBState) :
      delete_service service_id s = (r, s2) → Step cfg s s2
  | createService (name description documents_json : String) (s : DBState)
      (r : Option Service) (s2 : DBState) :
      create_service name description documents_json s = (r, s2) → Step cfg s s2
  | updateService (service_id : Nat) (name description documents_json : Option String)
      (s : DBState) (r : Bool) (s2 : DBState) :
      update_service service_id name description documents_json s = (r, s2) → Step cfg s s2
  | toggleService (service_id : Nat) (s : DBState) (r : Bool) (s2 : DBState) :
      toggle_service_status service_id s = (r, s2) → Step cfg s s2
  | deactivateService (service_id : Nat) (s : DBState) (r : Bool) (s2 : DBState) :
      deactivate_service service_id s = (r, s2) → Step cfg s s2
  | notifyOnly (s : DBState) (ns : List NotificationRec) :
      Step cfg s { s with notifications := ns }

/-- States reachable from the empty database by the operations above. -/
inductive Reachable (cfg : Config) : DBState → Prop where
  | init : Reachable cfg initState
  | step (s s2 : DBState) : Reachable cfg s → Step cfg s s2 → Reachable cfg s2

/-- Structural well-formedness of a database state: booking ids are below the
autoincrement counter, pairwise distinct, and every status is one of the two
legal values. -/
def StateWF (s : DBState) : Prop :=
  (∀ b ∈ s.bookings, b.id < s.nextBookingId) ∧
  s.bookings.Pairwise (fun a b => a.id ≠ b.id) ∧
  (∀ b ∈ s.bookings, b.status = "confirmed" ∨ b.status = "cancelled")

/-! Section: Reference-number format, stated from the spec sentence
"YYYYMMDD-XXXX, date prefix plus random 4-character suffix" -/

/-- Membership in `string.ascii_uppercase + string.digits`. -/
def isUpperOrDigit (c : Char) : Bool :=
  (65 ≤ c.toNat && c.toNat ≤ 90) || isDigitChar c

/-- The shape `YYYYMMDD-XXXX`: eight digits, a dash, four alphanumerics. -/
def matchesRefFormat (r : String) : Bool :=
  (r.data.take 8).all isDigitChar && (r.data.length == 13) &&
    (match r.data.drop 8 with
     | d :: suffix => (d == '-') && suffix.all isUpperOrDigit
     | [] => false)

/-- The time-slot shape claimed by the spec, read strictly: the plain ASCII
rendering `HH:MM` with hours `0..23` and minutes in `{0, 15, 30, 45}`. -/
def SlotSpec (s : String) : Prop :=
  ∃ hh mm : Nat, hh < 24 ∧ (mm = 0 ∨ mm = 15 ∨ mm = 30 ∨ mm = 45) ∧
    s = twoDigitString hh ++ ":" ++ twoDigitString mm

/-- A character that `\d` matches and that `int()` values as `v`. -/
def DigitFor (c : Char) (v : Nat) : Prop :=
  isPyDigit c = true ∧ pyDigitVal c = v

/-- The strings `validate_time_slot` actually accepts: two decimal digits, a
colon and two decimal digits — digits taken from the Unicode Nd class, with
their `int()` values — optionally followed by one trailing newline, with the
hour value below 24 and the minute value in `{0, 15, 30, 45}`. -/
def SlotSpecPy (s : String) : Prop :=
  ∃ hh mm : Nat, hh < 24 ∧ (mm = 0 ∨ mm = 15 ∨ mm = 30 ∨ mm = 45) ∧
    ∃ d1 d2 d3 d4 : Char, DigitFor d1 (hh / 10) ∧ DigitFor d2 (hh % 10) ∧
      DigitFor d3 (mm / 10) ∧ DigitFor d4 (mm % 10) ∧
      (s.data = [d1, d2, ':', d3, d4] ∨ s.data = [d1, d2, ':', d3, d4, '\n'])

/-! Section: A concrete scenario used to exercise the theorems

A configuration with the default capacity 2, one active service, and the
states reached by creating two bookings in the same slot, matching the
worked example of the spec. -/

def cfg0 : Config := { maxBookings := 2, today := 0, validCamps := ["Лагерь"] }

def svc0 : Service :=
  { id := 1, name := "Услуга", description := "", required_documents := "[]",
    active := true, display_order := 999 }

def sSvc : DBState :=
  { services := [svc0], bookings := [], notifications := [],
    nextServiceId := 2, nextBookingId := 1 }

def inp0 : BookingInput :=
  { service_id := 1, date := 1, time_slot := "10:00", last_name := "Иванов",
    first_name := "Анна", phone := "+7 (912) 345-67-89", camp := "Лагерь" }

def bk0 : Booking :=
  { id := 1, service_id := 1, date := 1, time_slot := "10:00", last_name := "Иванов",
    first_name := "Анна", phone := "+7 (912) 345-67-89", camp := "Лагерь",
    status := "confirmed", reference_number := "20250601-AB12" }

def sBook : DBState :=
  { services := [svc0], bookings := [bk0], notifications := [],
    nextServiceId := 2, nextBookingId := 2 }

def inp1 : BookingInput :=
  { service_id := 1, date := 1, time_slot := "10:00", last_name := "Петрова",
    first_name := "Мария", phone := "+7 (921) 111-22-33", camp := "Лагерь" }

def bk1 : Booking :=
  { id := 2, service_id := 1, date := 1, time_slot := "10:00", last_name := "Петрова",
    first_name := "Мария", phone := "+7 (921) 111-22-33", camp := "Лагерь",
    status := "confirmed", reference_number := "20250601-CD34" }

def sBook2 : DBState :=
  { services := [svc0], bookings := [bk0, bk1], notifications := [],
    nextServiceId := 2, nextBookingId := 3 }

/-- The state after the admin cancels booking 1 in `sBook2`. -/
def sCanc : DBState :=
  { services := [svc0], bookings := [setCancelled bk0, bk1],
    notifications := [{ booking_id := 1, notification_type := "cancellation" }],
    nextServiceId := 2, nextBookingId := 3 }

/-- The result of a third valid submission into the already-full slot
(1, 10:00) of `sBook2`. -/
def attempt3 : (Option Booking × List (String × String)) × DBState :=
  (create_booking cfg0 inp0 ["EF56"] "20250601" sBook2).getD ((none, []), sBook2)

/-! Scenario: a service whose only booking is cancelled, for the deletion claims. -/

def svcDel : Service :=
  { id := 7, name := "Удаляемая", description := "", required_documents := "[]",
    active := true, display_order := 999 }

def bkCancelled : Booking :=
  { id := 3, service_id := 7, date := 5, time_slot := "11:00", last_name := "Петров",
    first_name := "Иван", phone := "+7 (900) 000-00-00", camp := "Лагерь",
    status := "cancelled", reference_number := "20250601-ZZ99" }

def sDel : DBState :=
  { services := [svcDel], bookings := [bkCancelled], notifications := [],
    nextServiceId := 8, nextBookingId := 4 }

/-! Section: Basic lemmas about the operations -/

theorem validate_fst_eq (services : List Service) (today : Int) (inp : BookingInput)
    (valid_camps : List String) :
    (validate_booking_data services today inp valid_camps).1 =
      (validate_booking_data services today inp valid_camps).2.isEmpty := rfl

theorem generate_reference_mem {date_part : String} {cands refs : List String} {r : String}
    (h : generate_reference_number date_part cands refs = some r) :
    r ∉ refs ∧ ∃ c ∈ cands, r = date_part ++ "-" ++ c := by
  induction cands with
  | nil => simp [generate_reference_number] at h
  | cons c rest ih =>
    rw [generate_reference_number] at h
    by_cases hc : refs.contains (date_part ++ "-" ++ c)
    · simp only [hc, if_true] at h
      obtain ⟨hr, c2, hc2, hrc⟩ := ih h
      exact ⟨hr, c2, List.mem_cons_of_mem _ hc2, hrc⟩
    · simp only [hc, if_false] at h
      obtain rfl := Option.some.inj h
      refine ⟨?_, c, List.mem_cons_self _ _, rfl⟩
      intro hmem
      exact hc (List.elem_iff.mpr hmem)

theorem setCancelled_id (b : Booking) : (setCancelled b).id = b.id := rfl

theorem cancelUpd_id (booking_id : Nat) (b : Booking) : (cancelUpd booking_id b).id = b.id := by
  unfold cancelUpd
  split <;> rfl

theorem setCancelled_eq_self {b : Booking} (h : b.status = "cancelled") : setCancelled b = b := by
  cases b
  simp only [setCancelled]
  simp_all

theorem cancelUpd_idem (booking_id : Nat) (b : Booking) :
    cancelUpd booking_id (cancelUpd booking_id b) = cancelUpd booking_id b := by
  unfold cancelUpd
  by_cases hb : (b.id == booking_id) = true
  · simp [hb, setCancelled]
  · simp [hb]

theorem slot_count_append (bs bs2 : List Booking) (d : Int) (ts : String) :
    get_slot_count (bs ++ bs2) d ts = get_slot_count bs d ts + get_slot_count bs2 d ts := by
  simp [get_slot_count, List.filter_append]

theorem slotMatch_cancelUpd {booking_id : Nat} {d : Int} {ts : String} {b : Booking}
    (h : slotMatch d ts (cancelUpd booking_id b) = true) : slotMatch d ts b = true := by
  unfold cancelUpd at h
  split at h
  · simp [slotMatch, setCancelled] at h
  · exact h

theorem slot_count_map_cancelUpd (bs : List Booking) (booking_id : Nat) (d : Int) (ts : String) :
    get_slot_count (bs.map (cancelUpd booking_id)) d ts ≤ get_slot_count bs d ts := by
  induction bs with
  | nil => simp [get_slot_count]
  | cons b rest ih =>
    simp only [List.map_cons, get_slot_count, List.filter] at ih ⊢
    cases hm : slotMatch d ts (cancelUpd booking_id b) with
    | true =>
      rw [slotMatch_cancelUpd hm]
      simpa using Nat.succ_le_succ ih
    | false =>
      cases hb : slotMatch d ts b with
      | true => simpa using Nat.le_succ_of_le ih
      | false => simpa using ih


theorem slot_count_filter_le (bs : List Booking) (p : Booking → Bool) (d : Int) (ts : String) :
    get_slot_count (bs.filter p) d ts ≤ get_slot_count bs d ts :=
  List.Sublist.length_le (List.Sublist.filter _ (List.filter_sublist bs))

theorem mem_id_unique {l : List Booking} (hp : l.Pairwise (fun a b => a.id ≠ b.id))
    {a b : Booking} (ha : a ∈ l) (hb : b ∈ l) (hid : a.id = b.id) : a = b := by
  induction l with
  | nil => cases ha
  | cons x xs ih =>
    rw [List.pairwise_cons] at hp
    rcases List.mem_cons.mp ha with rfl | ha2
    · rcases List.mem_cons.mp hb with rfl | hb2
      · rfl
      · exact absurd hid (hp.1 b hb2)
    · rcases List.mem_cons.mp hb with rfl | hb2
      · exact absurd hid.symm (hp.1 a ha2)
      · exact ih hp.2 ha2 hb2

/-! Section: Shapes of the results of each operation -/

theorem cancel_booking_fst (booking_id : Nat) (admin : Bool) (o : NotifyOutcome) (s : DBState) :
    (cancel_booking booking_id admin o s).1 = (findBooking s.bookings booking_id).isSome := by
  cases hfb : findBooking s.bookings booking_id
  · simp [cancel_booking, hfb]
  · simp only [cancel_booking, hfb, Option.isSome_some]

theorem cancel_booking_bookings (booking_id : Nat) (admin : Bool) (o : NotifyOutcome)
    (s : DBState) :
    (cancel_booking booking_id admin o s).2.bookings =
      (if (findBooking s.bookings booking_id).isSome then s.bookings.map (cancelUpd booking_id)
       else s.bookings) := by
  cases hfb : findBooking s.bookings booking_id
  · simp [cancel_booking, hfb]
  · simp only [cancel_booking, hfb, Option.isSome_some, if_true]
    split
    · split <;> rfl
    · rfl

theorem cancel_booking_nextId (booking_id : Nat) (admin : Bool) (o : NotifyOutcome)
    (s : DBState) :
    (cancel_booking booking_id admin o s).2.nextBookingId = s.nextBookingId := by
  cases hfb : findBooking s.bookings booking_id
  · simp [cancel_booking, hfb]
  · simp only [cancel_booking, hfb]
    split
    · split <;> rfl
    · rfl

theorem create_booking_cases {cfg : Config} {inp : BookingInput} {candidates : List String}
    {date_part : String} {s : DBState} {res : Option Booking × List (String × String)}
    {s2 : DBState} (h : create_booking cfg inp candidates date_part s = some (res, s2)) :
    (res.1 = none ∧ res.2 ≠ [] ∧ s2 = s) ∨
    (∃ b : Booking, res = (some b, []) ∧
      b.id = s.nextBookingId ∧ b.date = inp.date ∧ b.time_slot = inp.time_slot ∧
      b.status = "confirmed" ∧
      b.reference_number ∉ s.bookings.map (fun x => x.reference_number) ∧
      is_slot_available s.bookings inp.date inp.time_slot cfg.maxBookings = true ∧
      s2 = { s with bookings := s.bookings ++ [b], nextBookingId := s.nextBookingId + 1 }) := by
  rw [create_booking] at h
  split at h
  · left
    rename_i hval
    obtain ⟨h1, h2⟩ := Prod.mk.inj (Option.some.inj h)
    subst h2
    subst h1
    rw [validate_fst_eq] at hval
    refine ⟨rfl, ?_, rfl⟩
    intro hnil
    have hnil2 : (validate_booking_data s.services cfg.today inp cfg.validCamps).2 = [] := hnil
    rw [hnil2] at hval
    simp at hval
  · split at h
    · left
      obtain ⟨h1, h2⟩ := Prod.mk.inj (Option.some.inj h)
      subst h2
      rw [← h1]
      exact ⟨rfl, by simp, rfl⟩
    · split at h
      · left
        obtain ⟨h1, h2⟩ := Prod.mk.inj (Option.some.inj h)
        subst h2
        rw [← h1]
        exact ⟨rfl, by simp, rfl⟩
      · rename_i havail hphone
        split at h
        · exact absurd h (by simp)
        · rename_i reference hgen
          right
          obtain ⟨h1, h2⟩ := Prod.mk.inj (Option.some.inj h)
          refine ⟨_, h1.symm, rfl, rfl, rfl, rfl, ?_, ?_, h2.symm⟩
          · exact (generate_reference_mem hgen).1
          · rename_i hslot _ _
            simpa using hslot

theorem delete_service_cases {service_id : Nat} {s : DBState} {r : Bool} {s2 : DBState}
    (h : delete_service service_id s = (r, s2)) :
    (r = false ∧ s2 = s) ∨
    (r = true ∧ can_delete_service s.bookings service_id = true ∧
      s2.bookings = s.bookings.filter (fun b => !(b.service_id == service_id)) ∧
      s2.services = s.services.filter (fun x => !(x.id == service_id)) ∧
      s2.notifications = s.notifications ∧
      s2.nextServiceId = s.nextServiceId ∧ s2.nextBookingId = s.nextBookingId) := by
  rw [delete_service] at h
  split at h
  · obtain ⟨h1, h2⟩ := Prod.mk.inj h
    exact Or.inl ⟨h1.symm, h2.symm⟩
  · rename_i hcan
    split at h
    · obtain ⟨h1, h2⟩ := Prod.mk.inj h
      exact Or.inl ⟨h1.symm, h2.symm⟩
    · rename_i service hfind
      split at h
      · obtain ⟨h1, h2⟩ := Prod.mk.inj h
        exact Or.inl ⟨h1.symm, h2.symm⟩
      · obtain ⟨h1, h2⟩ := Prod.mk.inj h
        have hsid : service.id = service_id := by
          have := List.find?_some hfind
          simpa using this
        right
        rw [hsid] at h2
        refine ⟨h1.symm, by simpa using hcan, ?_, ?_, ?_, ?_, ?_⟩ <;> rw [← h2]

theorem create_service_state (name description documents_json : String) (s : DBState) :
    (create_service name description documents_json s).2.bookings = s.bookings ∧
    (create_service name description documents_json s).2.nextBookingId = s.nextBookingId := by
  rw [create_service]
  split <;> exact ⟨rfl, rfl⟩

theorem update_service_state (service_id : Nat) (name description documents_json : Option String)
    (s : DBState) :
    (update_service service_id name description documents_json s).2.bookings = s.bookings ∧
    (update_service service_id name description documents_json s).2.nextBookingId =
      s.nextBookingId := by
  rw [update_service]
  split
  · exact ⟨rfl, rfl⟩
  · split
    · split
      · split <;> exact ⟨rfl, rfl⟩
      · exact ⟨rfl, rfl⟩
    · exact ⟨rfl, rfl⟩

theorem toggle_service_state (service_id : Nat) (s : DBState) :
    (toggle_service_status service_id s).2.bookings = s.bookings ∧
    (toggle_service_status service_id s).2.nextBookingId = s.nextBookingId := by
  rw [toggle_service_status]
  split <;> exact ⟨rfl, rfl⟩

theorem deactivate_service_state (service_id : Nat) (s : DBState) :
    (deactivate_service service_id s).2.bookings = s.bookings ∧
    (deactivate_service service_id s).2.nextBookingId = s.nextBookingId := by
  rw [deactivate_service]
  split <;> exact ⟨rfl, rfl⟩

/-- Every step changes the booking table in one of four ways: not at all, by
cancelling one id, by deleting the rows of one service, or by appending one
freshly numbered confirmed booking. -/
theorem step_bookings {cfg : Config} {s s2 : DBState} (h : Step cfg s s2) :
    (s2.bookings = s.bookings ∧ s2.nextBookingId = s.nextBookingId) ∨
    (∃ booking_id, s2.bookings = s.bookings.map (cancelUpd booking_id) ∧
      s2.nextBookingId = s.nextBookingId) ∨
    (∃ service_id, s2.bookings = s.bookings.filter (fun b => !(b.service_id == service_id)) ∧
      s2.nextBookingId = s.nextBookingId) ∨
    (∃ b : Booking, b.id = s.nextBookingId ∧ b.status = "confirmed" ∧
      s2.bookings = s.bookings ++ [b] ∧ s2.nextBookingId = s.nextBookingId + 1) := by
  cases h with
  | create inp candidates date_part s res s2 hcr =>
    rcases create_booking_cases hcr with ⟨_, _, rfl⟩ | ⟨b, _, hid, _, _, hst, _, _, rfl⟩
    · exact Or.inl ⟨rfl, rfl⟩
    · exact Or.inr (Or.inr (Or.inr ⟨b, hid, hst, rfl, rfl⟩))
  | cancel booking_id admin o s r s2 hc =>
    have hb := cancel_booking_bookings booking_id admin o s
    have hn := cancel_booking_nextId booking_id admin o s
    rw [hc] at hb hn
    by_cases hf : (findBooking s.bookings booking_id).isSome
    · rw [if_pos hf] at hb
      exact Or.inr (Or.inl ⟨booking_id, hb, hn⟩)
    · rw [if_neg hf] at hb
      exact Or.inl ⟨hb, hn⟩
  | deleteService service_id s r s2 hd =>
    rcases delete_service_cases hd with ⟨_, rfl⟩ | ⟨_, _, hb, _, _, _, hn⟩
    · exact Or.inl ⟨rfl, rfl⟩
    · exact Or.inr (Or.inr (Or.inl ⟨service_id, hb, hn⟩))
  | createService name description documents_json s r s2 hc =>
    have := create_service_state name description documents_json s
    rw [hc] at this
    exact Or.inl this
  | updateService service_id name description documents_json s r s2 hu =>
    have := update_service_state service_id name description documents_json s
    rw [hu] at this
    exact Or.inl this
  | toggleService service_id s r s2 ht =>
    have := toggle_service_state service_id s
    rw [ht] at this
    exact Or.inl this
  | deactivateService service_id s r s2 hd =>
    have := deactivate_service_state service_id s
    rw [hd] at this
    exact Or.inl this
  | notifyOnly s ns => exact Or.inl ⟨rfl, rfl⟩

/-- The structural invariant holds in every reachable state. -/
theorem reachable_wf {cfg : Config} {s : DBState} (h : Reachable cfg s) : StateWF s := by
  induction h with
  | init => exact ⟨by simp [initState], by simp [initState], by simp [initState]⟩
  | step s s2 hr hstep ih =>
    obtain ⟨ihlt, ihnd, ihst⟩ := ih
    rcases step_bookings hstep with ⟨hb, hn⟩ | ⟨booking_id, hb, hn⟩ | ⟨service_id, hb, hn⟩ |
      ⟨b, hbid, hbst, hb, hn⟩
    · exact ⟨by rw [hb, hn]; exact ihlt, by rw [hb]; exact ihnd, by rw [hb]; exact ihst⟩
    · refine ⟨?_, ?_, ?_⟩
      · rw [hb, hn]
        intro x hx
        obtain ⟨a, ha, rfl⟩ := List.mem_map.mp hx
        rw [cancelUpd_id]
        exact ihlt a ha
      · rw [hb]
        rw [List.pairwise_map]
        refine ihnd.imp ?_
        intro a c hac
        rw [cancelUpd_id, cancelUpd_id]
        exact hac
      · rw [hb]
        intro x hx
        obtain ⟨a, ha, rfl⟩ := List.mem_map.mp hx
        unfold cancelUpd
        split
        · right; rfl
        · exact ihst a ha
    · refine ⟨?_, ?_, ?_⟩
      · rw [hb, hn]
        intro x hx
        exact ihlt x (List.mem_of_mem_filter hx)
      · rw [hb]
        exact List.Pairwise.sublist (List.filter_sublist _) ihnd
      · rw [hb]
        intro x hx
        exact ihst x (List.mem_of_mem_filter hx)
    · refine ⟨?_, ?_, ?_⟩
      · rw [hb, hn]
        intro x hx
        rcases List.mem_append.mp hx with hx2 | hx2
        · exact Nat.lt_succ_of_lt (ihlt x hx2)
        · rw [List.mem_singleton.mp hx2, hbid]
          exact Nat.lt_succ_self _
      · rw [hb]
        rw [List.pairwise_append]
        refine ⟨ihnd, List.pairwise_singleton _ _, ?_⟩
        intro a ha x hx
        rw [List.mem_singleton.mp hx, hbid]
        exact Nat.ne_of_lt (ihlt a ha)
      · rw [hb]
        intro x hx
        rcases List.mem_append.mp hx with hx2 | hx2
        · exact ihst x hx2
        · rw [List.mem_singleton.mp hx2]
          exact Or.inl hbst

/-! Section: Digit-character lemmas for the format proofs -/

theorem pyDigitVal_lt_ten {c : Char} (hc : isPyDigit c = true) : pyDigitVal c < 10 := by
  unfold isPyDigit at hc
  unfold pyDigitVal
  cases hfind : ndRangeStarts.find? (fun s => s ≤ c.toNat && c.toNat < s + 10) with
  | none =>
    rw [List.any_eq_true] at hc
    obtain ⟨s0, hs0, hp⟩ := hc
    exact absurd hp (List.find?_eq_none.mp hfind s0 hs0)
  | some s0 =>
    have hp := List.find?_some hfind
    simp only [Bool.and_eq_true, decide_eq_true_eq] at hp
    show c.toNat - s0 < 10
    omega

theorem timeSlotCore_spec {h1 h2 m1 m2 : Char} (h : timeSlotCore h1 h2 m1 m2 = true) :
    ∃ hh mm : Nat, hh < 24 ∧ (mm = 0 ∨ mm = 15 ∨ mm = 30 ∨ mm = 45) ∧
      DigitFor h1 (hh / 10) ∧ DigitFor h2 (hh % 10) ∧
      DigitFor m1 (mm / 10) ∧ DigitFor m2 (mm % 10) := by
  simp only [timeSlotCore, Bool.and_eq_true, Bool.or_eq_true, decide_eq_true_eq,
    beq_iff_eq] at h
  obtain ⟨⟨⟨⟨hd1, hd2⟩, hd3⟩, hd4⟩, hlt, hmin⟩ := h
  have hv2 := pyDigitVal_lt_ten hd2
  have hv4 := pyDigitVal_lt_ten hd4
  refine ⟨10 * pyDigitVal h1 + pyDigitVal h2, 10 * pyDigitVal m1 + pyDigitVal m2, hlt,
    by tauto, ⟨hd1, by omega⟩, ⟨hd2, by omega⟩, ⟨hd3, by omega⟩, ⟨hd4, by omega⟩⟩

theorem timeSlotCore_of_spec {h1 h2 m1 m2 : Char} {hh mm : Nat} (hlt : hh < 24)
    (hmm : mm = 0 ∨ mm = 15 ∨ mm = 30 ∨ mm = 45)
    (hd1 : DigitFor h1 (hh / 10)) (hd2 : DigitFor h2 (hh % 10))
    (hd3 : DigitFor m1 (mm / 10)) (hd4 : DigitFor m2 (mm % 10)) :
    timeSlotCore h1 h2 m1 m2 = true := by
  simp only [timeSlotCore]
  rw [hd1.1, hd2.1, hd3.1, hd4.1, hd1.2, hd2.2, hd3.2, hd4.2]
  have hhh : 10 * (hh / 10) + hh % 10 = hh := by omega
  have hmmm : 10 * (mm / 10) + mm % 10 = mm := by omega
  rw [hhh, hmmm]
  simp only [Bool.true_and]
  rw [decide_eq_true hlt]
  simp only [Bool.true_and]
  rcases hmm with rfl | rfl | rfl | rfl <;> rfl

/-! Section: find? through the cancellation update -/

theorem findBooking_map_cancelUpd (booking_id : Nat) (bs : List Booking) :
    findBooking (bs.map (cancelUpd booking_id)) booking_id =
      (findBooking bs booking_id).map (cancelUpd booking_id) := by
  unfold findBooking
  rw [List.find?_map]
  have hp : ((fun b : Booking => b.id == booking_id) ∘ cancelUpd booking_id) =
      (fun b : Booking => b.id == booking_id) := by
    funext x
    simp [Function.comp, cancelUpd_id]
  rw [hp]

/-! Section: The concrete scenario is reachable -/

theorem reach_sSvc : Reachable cfg0 sSvc :=
  Reachable.step _ _ Reachable.init
    (Step.createService "Услуга" "" "[]" initState (some svc0) sSvc rfl)

theorem reach_sBook : Reachable cfg0 sBook :=
  Reachable.step _ _ reach_sSvc
    (Step.create inp0 ["AB12"] "20250601" sSvc (some bk0, []) sBook rfl)

theorem reach_sBook2 : Reachable cfg0 sBook2 :=
  Reachable.step _ _ reach_sBook
    (Step.create inp1 ["CD34"] "20250601" sBook (some bk1, []) sBook2 rfl)

/-! Section: The capacity bound, by induction over reachability -/

theorem slot_count_le {cfg : Config} {s : DBState} (h : Reachable cfg s) :
    ∀ d ts, get_slot_count s.bookings d ts ≤ cfg.maxBookings := by
  induction h with
  | init => intro d ts; simp [initState, get_slot_count]
  | step s s2 hr hstep ih =>
    intro d ts
    cases hstep with
    | create inp candidates date_part s res s2 hcr =>
      rcases create_booking_cases hcr with ⟨_, _, rfl⟩ |
        ⟨b, hres, hid, hd, hts, hst, href, havail, rfl⟩
      · exact ih d ts
      · show get_slot_count (s.bookings ++ [b]) d ts ≤ _
        rw [slot_count_append]
        by_cases hm : slotMatch d ts b = true
        · have hmm := hm
          simp only [slotMatch, Bool.and_eq_true, beq_iff_eq] at hmm
          obtain ⟨⟨hbd, hbts⟩, _⟩ := hmm
          have hcount : get_slot_count s.bookings d ts < cfg.maxBookings := by
            have hav := of_decide_eq_true havail
            rw [← hd, ← hts, hbd, hbts] at hav
            exact hav
          have hone : get_slot_count [b] d ts = 1 := by
            simp [get_slot_count, List.filter, hm]
          omega
        · have hzero : get_slot_count [b] d ts = 0 := by
            simp only [Bool.not_eq_true] at hm
            simp [get_slot_count, List.filter, hm]
          rw [hzero]
          simpa using ih d ts
    | cancel booking_id admin o s r s2 hc =>
      have hb := cancel_booking_bookings booking_id admin o s
      rw [hc] at hb
      by_cases hf : (findBooking s.bookings booking_id).isSome
      · rw [if_pos hf] at hb
        rw [hb]
        exact le_trans (slot_count_map_cancelUpd s.bookings booking_id d ts) (ih d ts)
      · rw [if_neg hf] at hb
        rw [hb]
        exact ih d ts
    | deleteService service_id s r s2 hd =>
      rcases delete_service_cases hd with ⟨_, rfl⟩ | ⟨_, _, hb, _, _, _, _⟩
      · exact ih d ts
      · rw [hb]
        exact le_trans (slot_count_filter_le s.bookings _ d ts) (ih d ts)
    | createService name description documents_json s r s2 hc =>
      have := create_service_state name description documents_json s
      rw [hc] at this
      rw [this.1]
      exact ih d ts
    | updateService service_id name description documents_json s r s2 hu =>
      have := update_service_state service_id name description documents_json s
      rw [hu] at this
      rw [this.1]
      exact ih d ts
    | toggleService service_id s r s2 ht =>
      have := toggle_service_state service_id s
      rw [ht] at this
      rw [this.1]
      exact ih d ts
    | deactivateService service_id s r s2 hd =>
      have := deactivate_service_state service_id s
      rw [hd] at this
      rw [this.1]
      exact ih d ts
    | notifyOnly s ns => exact ih d ts

/-! Section: The claims -/

/-- C1: in every reachable state, for every (date, time slot) pair the number
of bookings with status confirmed — cancelled bookings are not counted by
`get_slot_count` — never exceeds the configured maximum, and whenever the
confirmed count of a slot has reached the maximum, `create_booking` for that
slot inserts nothing: it returns no booking and leaves the state unchanged. -/
theorem slot_capacity_invariant {cfg : Config} {s : DBState} (h : Reachable cfg s) :
    ∀ d ts, get_slot_count s.bookings d ts ≤ cfg.maxBookings ∧
      (get_slot_count s.bookings d ts = cfg.maxBookings →
        ∀ inp candidates date_part res s2, inp.date = d → inp.time_slot = ts →
          create_booking cfg inp candidates date_part s = some (res, s2) →
          res.1 = none ∧ s2 = s) := by
  intro d ts
  refine ⟨slot_count_le h d ts, ?_⟩
  intro hfull inp candidates date_part res s2 hd hts hcr
  rcases create_booking_cases hcr with ⟨h1, _, h3⟩ | ⟨b, _, _, _, _, _, _, havail, _⟩
  · exact ⟨h1, h3⟩
  · exfalso
    have hav := of_decide_eq_true havail
    rw [hd, hts] at hav
    omega

/-- C1 witness: the scenario state with two confirmed bookings in the slot
(1, 10:00) is reachable and satisfies the bound for capacity 2. -/
theorem slot_capacity_invariant_witness :
    get_slot_count sBook2.bookings 1 "10:00" = 2 ∧
    get_slot_count sBook2.bookings 1 "10:00" ≤ cfg0.maxBookings :=
  ⟨by decide, (slot_capacity_invariant reach_sBook2 1 "10:00").1⟩

/-- C2: contrary to the claim, a service whose only booking is cancelled CAN
be deleted: `can_delete_service` counts only bookings with status different
from cancelled (service_manager.py:157-160), so with the single cancelled
booking `bkCancelled` referencing service 7 the check passes and
`delete_service` removes the service.  The repository's own tests
(test_service_deletion.py, test_service_deletion_property.py) assert the
opposite behaviour, which matches the claim. -/
theorem delete_service_ignores_cancelled_bookings :
    sDel.bookings = [bkCancelled] ∧ bkCancelled.status = "cancelled" ∧
    bkCancelled.service_id = svcDel.id ∧
    can_delete_service sDel.bookings svcDel.id = true ∧
    delete_service svcDel.id sDel =
      (true, { services := [], bookings := [], notifications := [],
               nextServiceId := 8, nextBookingId := 4 }) := by
  decide

/-- C3: `create_booking` returns either a booking with an empty error map or
no booking with a non-empty error map, never both; and on a valid input whose
slot is at capacity it returns no booking, the single error key `time_slot`,
and the state (hence the booking table) unchanged. -/
theorem create_booking_result_shape (cfg : Config) (inp : BookingInput)
    (candidates : List String) (date_part : String) (s : DBState)
    (res : Option Booking × List (String × String)) (s2 : DBState)
    (h : create_booking cfg inp candidates date_part s = some (res, s2)) :
    ((∃ b, res = (some b, [])) ∨ (res.1 = none ∧ res.2 ≠ [])) ∧
    ((validate_booking_data s.services cfg.today inp cfg.validCamps).1 = true →
      is_slot_available s.bookings inp.date inp.time_slot cfg.maxBookings = false →
      res.1 = none ∧ res.2.map Prod.fst = ["time_slot"] ∧ s2 = s) := by
  constructor
  · rcases create_booking_cases h with ⟨h1, h2, _⟩ | ⟨b, hres, _⟩
    · exact Or.inr ⟨h1, h2⟩
    · exact Or.inl ⟨b, hres⟩
  · intro hv hs
    rw [create_booking] at h
    rw [hv, hs] at h
    simp only [Bool.not_true, Bool.not_false, if_false, if_true] at h
    obtain ⟨h1, h2⟩ := Prod.mk.inj (Option.some.inj h)
    rw [← h1, ← h2]
    exact ⟨rfl, rfl, rfl⟩

/-- C3 witness: a third valid submission into the full slot (1, 10:00) of the
reachable state `sBook2` yields no booking, exactly the error key time_slot,
and no state change. -/
theorem create_booking_result_shape_witness :
    (validate_booking_data sBook2.services cfg0.today inp0 cfg0.validCamps).1 = true ∧
    is_slot_available sBook2.bookings inp0.date inp0.time_slot cfg0.maxBookings = false ∧
    attempt3.1.1 = none ∧ attempt3.1.2.map Prod.fst = ["time_slot"] ∧
    attempt3.2 = sBook2 := by
  have h := create_booking_result_shape cfg0 inp0 ["EF56"] "20250601" sBook2
    attempt3.1 attempt3.2 (by rfl)
  have h2 := h.2 (by rfl) (by rfl)
  exact ⟨by rfl, by rfl, h2.1, h2.2.1, h2.2.2⟩

/-- C10: whenever `delete_service` succeeds, every booking that referenced the
service had status cancelled, all those bookings are deleted together with the
service (only rows of other services remain), and the bookings of other
services are untouched. -/
theorem delete_service_removes_referencing_bookings (service_id : Nat) (s s2 : DBState)
    (h : delete_service service_id s = (true, s2)) :
    (∀ b ∈ s.bookings, b.service_id = service_id → b.status = "cancelled") ∧
    s2.bookings = s.bookings.filter (fun b => !(b.service_id == service_id)) ∧
    (∀ b ∈ s2.bookings, b.service_id ≠ service_id) := by
  rcases delete_service_cases h with ⟨hfalse, _⟩ | ⟨_, hcan, hb, _⟩
  · cases hfalse
  · refine ⟨?_, hb, ?_⟩
    · intro b hbm hbs
      unfold can_delete_service at hcan
      rw [Nat.beq_eq_true_eq] at hcan
      have hempty := List.length_eq_zero.mp hcan
      have := List.filter_eq_nil_iff.mp hempty b hbm
      simp only [Bool.and_eq_true, beq_iff_eq, Bool.not_eq_true] at this
      by_contra hnc
      exact this ⟨by simp [hbs], by simpa using hnc⟩
    · intro b hbm
      rw [hb] at hbm
      have := (List.mem_filter.mp hbm).2
      simpa using this

/-- C10 witness: deleting service 7 from `sDel` succeeds; its cancelled
booking is removed and nothing else referenced the service. -/
theorem delete_service_removes_referencing_bookings_witness :
    (∀ b ∈ sDel.bookings, b.service_id = 7 → b.status = "cancelled") ∧
    (delete_service 7 sDel).2.bookings =
      sDel.bookings.filter (fun b => !(b.service_id == 7)) ∧
    (∀ b ∈ (delete_service 7 sDel).2.bookings, b.service_id ≠ 7) :=
  delete_service_removes_referencing_bookings 7 sDel (delete_service 7 sDel).2 (by rfl)

/-- C5: one step of the system never rewrites an existing booking except by
the confirmed-to-cancelled status transition: a booking of the next state with
the id of a booking of the current reachable state is either identical to it
or is its cancelled copy, the latter only when it was confirmed. -/
theorem booking_status_transitions {cfg : Config} {s s2 : DBState} (hr : Reachable cfg s)
    (hstep : Step cfg s s2) :
    ∀ b ∈ s.bookings, ∀ b2 ∈ s2.bookings, b2.id = b.id →
      b2 = b ∨ (b.status = "confirmed" ∧ b2 = setCancelled b) := by
  obtain ⟨ihlt, ihnd, ihst⟩ := reachable_wf hr
  intro b hb b2 hb2 hid
  rcases step_bookings hstep with ⟨hbs, _⟩ | ⟨booking_id, hbs, _⟩ | ⟨service_id, hbs, _⟩ |
    ⟨bnew, hbid, _, hbs, _⟩
  · rw [hbs] at hb2
    exact Or.inl (mem_id_unique ihnd hb2 hb hid)
  · rw [hbs] at hb2
    obtain ⟨a, ha, rfl⟩ := List.mem_map.mp hb2
    rw [cancelUpd_id] at hid
    obtain rfl := mem_id_unique ihnd ha hb hid
    unfold cancelUpd
    split
    · rcases ihst a ha with hcf | hcc
      · exact Or.inr ⟨hcf, rfl⟩
      · exact Or.inl (setCancelled_eq_self hcc)
    · exact Or.inl rfl
  · rw [hbs] at hb2
    exact Or.inl (mem_id_unique ihnd (List.mem_of_mem_filter hb2) hb hid)
  · rw [hbs] at hb2
    rcases List.mem_append.mp hb2 with hb2a | hb2a
    · exact Or.inl (mem_id_unique ihnd hb2a hb hid)
    · exfalso
      rw [List.mem_singleton.mp hb2a, hbid] at hid
      exact absurd (hid ▸ ihlt b hb) (lt_irrefl _)

/-- C5 witness: in the reachable state `sBook2`, cancelling booking 1 turns
`bk0` into exactly its cancelled copy. -/
theorem booking_status_transitions_witness :
    setCancelled bk0 = bk0 ∨ (bk0.status = "confirmed" ∧ setCancelled bk0 = setCancelled bk0) :=
  booking_status_transitions reach_sBook2
    (Step.cancel 1 true (NotifyOutcome.returned true) sBook2 true sCanc (by rfl))
    bk0 (by decide) (setCancelled bk0) (by decide) rfl

/-- C8: the result of `cancel_booking` — both the returned flag and the
booking table — does not depend on the outcome of the notification dispatch,
a raised exception included, and an existing booking id always yields `true`:
cancellation completes no matter what the push path does. -/
theorem cancel_booking_ignores_notification (booking_id : Nat) (admin : Bool)
    (o o2 : NotifyOutcome) (s : DBState) :
    (cancel_booking booking_id admin o s).1 = (cancel_booking booking_id admin o2 s).1 ∧
    (cancel_booking booking_id admin o s).2.bookings =
      (cancel_booking booking_id admin o2 s).2.bookings ∧
    ((findBooking s.bookings booking_id).isSome = true →
      (cancel_booking booking_id admin o s).1 = true) := by
  refine ⟨?_, ?_, ?_⟩
  · rw [cancel_booking_fst, cancel_booking_fst]
  · rw [cancel_booking_bookings, cancel_booking_bookings]
  · intro hf
    rw [cancel_booking_fst, hf]

/-- C8 witness: cancelling booking 1 of `sBook2` succeeds identically whether
the notification send reports failure or raises. -/
theorem cancel_booking_ignores_notification_witness :
    (cancel_booking 1 true (NotifyOutcome.returned false) sBook2).1 =
      (cancel_booking 1 true (NotifyOutcome.raised "WebPushException") sBook2).1 ∧
    (cancel_booking 1 true (NotifyOutcome.returned false) sBook2).2.bookings =
      (cancel_booking 1 true (NotifyOutcome.raised "WebPushException") sBook2).2.bookings ∧
    (cancel_booking 1 true (NotifyOutcome.returned false) sBook2).1 = true := by
  have h := cancel_booking_ignores_notification 1 true (NotifyOutcome.returned false)
    (NotifyOutcome.raised "WebPushException") sBook2
  exact ⟨h.1, h.2.1, h.2.2 (by decide)⟩

/-- C9: `cancel_booking` returns `true` exactly when the booking id exists
(whatever its current status), afterwards the row with that id has status
cancelled, and a second cancellation leaves the booking table exactly as
after the first: the operation is idempotent on the table. -/
theorem cancel_booking_idempotent (booking_id : Nat) (a1 a2 : Bool) (o1 o2 : NotifyOutcome)
    (s : DBState) :
    ((cancel_booking booking_id a1 o1 s).1 = (findBooking s.bookings booking_id).isSome) ∧
    (∀ b ∈ (cancel_booking booking_id a1 o1 s).2.bookings, b.id = booking_id →
      b.status = "cancelled") ∧
    ((cancel_booking booking_id a2 o2 (cancel_booking booking_id a1 o1 s).2).2.bookings =
      (cancel_booking booking_id a1 o1 s).2.bookings) := by
  refine ⟨cancel_booking_fst _ _ _ _, ?_, ?_⟩
  · intro b hb hid
    rw [cancel_booking_bookings] at hb
    by_cases hf : (findBooking s.bookings booking_id).isSome
    · rw [if_pos hf] at hb
      obtain ⟨a, ha, rfl⟩ := List.mem_map.mp hb
      rw [cancelUpd_id] at hid
      unfold cancelUpd
      rw [if_pos (beq_iff_eq.mpr hid)]
      rfl
    · rw [if_neg hf] at hb
      exfalso
      rw [Option.not_isSome_iff_eq_none] at hf
      have := List.find?_eq_none.mp hf b hb
      exact this (beq_iff_eq.mpr hid)
  · by_cases hf : (findBooking s.bookings booking_id).isSome
    · have h1 : (cancel_booking booking_id a1 o1 s).2.bookings =
          s.bookings.map (cancelUpd booking_id) := by
        rw [cancel_booking_bookings, if_pos hf]
      have h2 : (findBooking (cancel_booking booking_id a1 o1 s).2.bookings
          booking_id).isSome = true := by
        rw [h1, findBooking_map_cancelUpd]
        obtain ⟨b, hbeq⟩ := Option.isSome_iff_exists.mp hf
        rw [hbeq]
        rfl
      rw [cancel_booking_bookings, if_pos h2, h1, List.map_map]
      exact List.map_congr_left (fun a _ => cancelUpd_idem booking_id a)
    · have h1 : (cancel_booking booking_id a1 o1 s).2.bookings = s.bookings := by
        rw [cancel_booking_bookings, if_neg hf]
      rw [cancel_booking_bookings, h1, if_neg hf]

/-- C9 witness: cancelling booking 1 of `sBook2` returns `true`, marks the row
cancelled, and cancelling again changes nothing in the table. -/
theorem cancel_booking_idempotent_witness :
    ((cancel_booking 1 true (NotifyOutcome.returned true) sBook2).1 = true) ∧
    (setCancelled bk0).status = "cancelled" ∧
    ((cancel_booking 1 false (NotifyOutcome.returned true)
        (cancel_booking 1 true (NotifyOutcome.returned true) sBook2).2).2.bookings =
      (cancel_booking 1 true (NotifyOutcome.returned true) sBook2).2.bookings) := by
  have h := cancel_booking_idempotent 1 true false (NotifyOutcome.returned true)
    (NotifyOutcome.returned true) sBook2
  refine ⟨by rw [h.1]; decide, ?_, h.2.2⟩
  exact h.2.1 (setCancelled bk0) (by decide) rfl

/-- C4: any reference number returned by `generate_reference_number` is absent
from the stored reference numbers it was checked against, is the supplied
date prefix (today's `YYYYMMDD` rendering, eight digits) followed by a dash
and one of the candidate 4-character alphanumeric suffixes — a candidate that
collides with a stored number is skipped and the next one is used — and hence
matches the shape `YYYYMMDD-XXXX`. -/
theorem generate_reference_number_spec (date_part : String) (candidates refs : List String)
    (r : String)
    (hdp : date_part.data.length = 8 ∧ date_part.data.all isDigitChar = true)
    (hc : ∀ c ∈ candidates, c.data.length = 4 ∧ c.data.all isUpperOrDigit = true)
    (h : generate_reference_number date_part candidates refs = some r) :
    r ∉ refs ∧ (∃ c ∈ candidates, r = date_part ++ "-" ++ c) ∧ matchesRefFormat r = true := by
  obtain ⟨hnot, c, hcm, rfl⟩ := generate_reference_mem h
  obtain ⟨hcl, hca⟩ := hc c hcm
  refine ⟨hnot, ⟨c, hcm, rfl⟩, ?_⟩
  have hdata : (date_part ++ "-" ++ c).data = date_part.data ++ ('-' :: c.data) := by
    rw [String.data_append, String.data_append]
    simp
  unfold matchesRefFormat
  rw [hdata, Bool.and_eq_true, Bool.and_eq_true]
  refine ⟨⟨?_, ?_⟩, ?_⟩
  · rw [← hdp.1, List.take_left]
    exact hdp.2
  · simp [List.length_append, hdp.1, hcl]
  · rw [← hdp.1, List.drop_left]
    show (('-' == '-') && c.data.all isUpperOrDigit) = true
    simp [hca]

/-- C4 witness: with the first random suffix colliding with a stored
reference, the generator retries and returns a fresh well-formed number. -/
theorem generate_reference_number_spec_witness :
    "20250601-CD34" ∉ ["20250601-AB12"] ∧
    (∃ c ∈ ["AB12", "CD34"], "20250601-CD34" = "20250601" ++ "-" ++ c) ∧
    matchesRefFormat "20250601-CD34" = true :=
  generate_reference_number_spec "20250601" ["AB12", "CD34"] ["20250601-AB12"]
    "20250601-CD34" (by decide) (by decide) (by rfl)

/-- C6: the date validation used for bookings — `validate_date` followed by
`validate_date_range` with the default 30-day window — accepts a date exactly
when it is not before today and at most 30 days after today: strictly past
dates and dates beyond the window are rejected. -/
theorem date_validation_iff (today d : Int) :
    ((validate_date today d false).1 = true ∧ validate_date_range today d 30 = true) ↔
      (today ≤ d ∧ d ≤ today + 30) := by
  unfold validate_date_range validate_date
  by_cases hlt : d < today
  · simp [hlt]
  · simp [hlt]
    intro hx
    omega

/-- C6 witness: day 5 with today = 0 is inside the window and accepted. -/
theorem date_validation_iff_witness :
    (validate_date 0 5 false).1 = true ∧ validate_date_range 0 5 30 = true :=
  (date_validation_iff 0 5).mpr (by omega)

/-- C7 counterexample: the claim reads "accepts only strings of the form
HH:MM", but the anchor `$` of the source regex also matches just before a
trailing newline, so the six-character string built from "12:15" and a
newline is accepted although it is not of the five-character HH:MM shape. -/
theorem validate_time_slot_accepts_trailing_newline :
    validate_time_slot "12:15\n" = true ∧ ("12:15\n").data.length = 6 ∧
      ¬ SlotSpec "12:15\n" := by
  refine ⟨by decide, by decide, ?_⟩
  rintro ⟨hh, mm, _, _, heq⟩
  have hlen := congrArg String.length heq
  rw [String.length_append, String.length_append] at hlen
  have h2 : (twoDigitString hh).length = 2 := rfl
  have h3 : (twoDigitString mm).length = 2 := rfl
  rw [h2, h3] at hlen
  revert hlen
  decide

/-- C7 (amended): `validate_time_slot` accepts a string exactly when it is two
decimal digits, a colon and two decimal digits — digits being the Unicode
class matched by `\d`, taken at their `int()` values — optionally followed by
one single trailing newline, with the hour value in `0..23` and the minute
value one of `{0, 15, 30, 45}`; in particular any string whose minute value is
not one of those four is rejected. -/
theorem validate_time_slot_iff (s : String) : validate_time_slot s = true ↔ SlotSpecPy s := by
  constructor
  · intro hv
    unfold validate_time_slot at hv
    split at hv
    · rename_i h1 h2 c m1 m2 heq
      rw [Bool.and_eq_true, beq_iff_eq] at hv
      obtain ⟨hc, hcore⟩ := hv
      subst hc
      obtain ⟨hh, mm, hlt, hmem, hd1, hd2, hd3, hd4⟩ := timeSlotCore_spec hcore
      exact ⟨hh, mm, hlt, hmem, h1, h2, m1, m2, hd1, hd2, hd3, hd4, Or.inl heq⟩
    · rename_i h1 h2 c m1 m2 nl heq
      rw [Bool.and_eq_true, Bool.and_eq_true, beq_iff_eq, beq_iff_eq] at hv
      obtain ⟨⟨hc, hnl⟩, hcore⟩ := hv
      subst hc
      subst hnl
      obtain ⟨hh, mm, hlt, hmem, hd1, hd2, hd3, hd4⟩ := timeSlotCore_spec hcore
      exact ⟨hh, mm, hlt, hmem, h1, h2, m1, m2, hd1, hd2, hd3, hd4, Or.inr heq⟩
    · exact Bool.noConfusion hv
  · rintro ⟨hh, mm, hlt, hmem, d1, d2, d3, d4, hd1, hd2, hd3, hd4, hshape | hshape⟩ <;>
      unfold validate_time_slot <;> rw [hshape]
    · show ((':' == ':') && timeSlotCore d1 d2 d3 d4) = true
      rw [timeSlotCore_of_spec hlt hmem hd1 hd2 hd3 hd4]
      rfl
    · show ((':' == ':') && ('\n' == '\n') && timeSlotCore d1 d2 d3 d4) = true
      rw [timeSlotCore_of_spec hlt hmem hd1 hd2 hd3 hd4]
      rfl

/-- C7 witness: the accepted newline-terminated string of the counterexample,
and an accepted Arabic-Indic digit rendering of 12:15, both satisfy the
amended shape. -/
theorem validate_time_slot_iff_witness : SlotSpecPy "12:15\n" ∧ SlotSpecPy "١٢:١٥" :=
  ⟨(validate_time_slot_iff "12:15\n").mp (by decide),
   (validate_time_slot_iff "١٢:١٥").mp (by decide)⟩

end CampBooking
